import Mathlib

/-!
Verification of the dynamodb-copy CLI (src/cli/cli.py) against its
specification.  The Python functions are shallowly embedded as Lean
functions; the DynamoDB backing store is modelled explicitly:

* a paginated scan of a table is modelled by the finite list of
  responses the store serves, each response carrying a page of items
  and a flag recording whether a LastEvaluatedKey continuation cursor
  is present (cursor-following is baked into the response order);
* the store's put has upsert-by-key semantics, modelled on a list
  of rows;
* the batch writer obtained from table.batch_writer() is boto3
  library code (not under src/) and is modelled from the spec, §4.3.

Progress-bar calls (progress.counter.Counter) are console side
effects and are not modelled.  Error messages are modelled without
the quote characters the source puts around interpolated names.
-/

namespace DynamoCopy

/-- DynamoDB attribute values as seen by the copier: opaque typed
scalars.  The copier never inspects values, so a representative set of
scalar types suffices to state exact reproduction of attributes and
their types. -/
inductive AttrValue where
  | S (s : String)
  | N (n : Int)
  | BOOL (b : Bool)
deriving DecidableEq

/-- An item is an attribute mapping (string key → typed value),
modelled as an association list from attribute names to values. -/
abbrev Item := List (String × AttrValue)

/-- Value of the table's (hash) key attribute in an item, if present. -/
def itemKey (keyAttr : String) (it : Item) : Option AttrValue :=
  (it.find? fun a => a.1 == keyAttr).map fun a => a.2

/-- One response of the paginated scan: the page of items, and whether
the response carries a LastEvaluatedKey continuation cursor. -/
structure ScanResp where
  Items : List Item
  lastEvaluatedKey : Bool
deriving DecidableEq

/-- Requests issued against the backing store during a run. -/
inductive Event where
  | scanReq
  | batchWriteReq (batch : List Item)
deriving DecidableEq

def Event.isScan : Event → Bool
  | .scanReq => true
  | .batchWriteReq _ => false

def Event.isWrite : Event → Bool
  | .scanReq => false
  | .batchWriteReq _ => true

/-- The scan loop of get_dynamodb_items (src/cli/cli.py lines 86-103):
a first scan is issued unconditionally, its Items are appended, and
while the previous response carried a LastEvaluatedKey another scan is
issued (a do-while).  `resps` is the list of successive responses the
store serves to the successive scan calls; each iteration records the
scan request it issued.  Returns the accumulated items and the request
trace. -/
def get_dynamodb_items_aux (resps : List ScanResp) (acc : List Item) :
    List Item × List Event :=
  match resps with
  | [] => (acc, [])
  | r :: rest =>
    if r.lastEvaluatedKey then
      let p := get_dynamodb_items_aux rest (acc ++ r.Items)
      (p.1, Event.scanReq :: p.2)
    else (acc ++ r.Items, [Event.scanReq])

/-- get_dynamodb_items: drain the table, accumulating every page's
items into one list. -/
def get_dynamodb_items (resps : List ScanResp) : List Item :=
  (get_dynamodb_items_aux resps []).1

/-- The scan requests issued by get_dynamodb_items. -/
def scanEvents (resps : List ScanResp) : List Event :=
  (get_dynamodb_items_aux resps []).2

/-- The responses a store serves when it splits a table into the given
pages: every page but the last carries a continuation cursor.  A store
always answers a scan, so an empty table yields one cursor-free empty
response. -/
def responsesOfPages : List (List Item) → List ScanResp
  | [] => [⟨[], false⟩]
  | [p] => [⟨p, false⟩]
  | p :: q :: rest => ⟨p, true⟩ :: responsesOfPages (q :: rest)

/-- Modelled from the spec: the backing store's put primitive has
upsert-by-key semantics (§4.3, Idempotence) — the row with the same
primary-key value, if any, is replaced.  On the list-of-rows model:
rows whose key value equals the new item's are removed and the item is
appended. -/
def put_item (keyAttr : String) (rows : List Item) (it : Item) :
    List Item :=
  rows.filter (fun r => decide (itemKey keyAttr r ≠ itemKey keyAttr it))
    ++ [it]

/-- write_items_to_dyanmodb_table (name as in the source,
src/cli/cli.py lines 108-123): hand every item, in order, to the
store's put primitive via the batch writer.  Returns the destination
rows after the writes. -/
def write_items_to_dyanmodb_table (keyAttr : String) (items : List Item)
    (rows : List Item) : List Item :=
  items.foldl (put_item keyAttr) rows

/-- Modelled from the spec: one put_item hand-off to the batch writer
the repository obtains from table.batch_writer() (boto3 library code,
not under src/).  The writer buffers the item and submits a batch as
soon as the buffer reaches the configured maximum items-per-batch
(§4.3, Batch).  State: (batches already submitted, current buffer). -/
def batchWriterStep (maxBatch : Nat) (st : List (List Item) × List Item)
    (it : Item) : List (List Item) × List Item :=
  let buf := st.2 ++ [it]
  if maxBatch ≤ buf.length then (st.1 ++ [buf], []) else (st.1, buf)

/-- Modelled from the spec: the batches the batch writer submits while
write_items_to_dyanmodb_table hands it the given item sequence — flush
whenever the buffer reaches maxBatch, and flush the nonempty remainder
when the writer's context is closed. -/
def batchWriterRun (maxBatch : Nat) (items : List Item) :
    List (List Item) :=
  let st := items.foldl (batchWriterStep maxBatch) ([], [])
  if st.2.isEmpty then st.1 else st.1 ++ [st.2]

/-- Outcome of the STS get-caller-identity call issued by
validate_aws_credentials: success with an account id, a botocore
ClientError carrying an error code, or an EndpointConnectionError. -/
inductive StsOutcome where
  | ok (account : String)
  | clientError (code : String)
  | endpointConnectionError
deriving DecidableEq

/-- How a call to validate_aws_credentials ends: the function returns
(with the account id, or with None when an exception was caught but
neither handled code matched), or the process exits with status 1
after printing the message. -/
inductive ValidateResult where
  | returned (account : Option String)
  | exited (msg : String)
deriving DecidableEq

def ValidateResult.isExit : ValidateResult → Bool
  | .returned _ => false
  | .exited _ => true

def token_error_msg : String := "ERROR: Security token issue: "

/-- validate_aws_credentials (src/cli/cli.py lines 28-51): call STS
get-caller-identity; on success return the account id.  A ClientError
is caught: the codes ExpiredToken and InvalidClientTokenId print a
message and exit(1); any other code matches neither branch, so the
except block falls through and the function returns None.  An
EndpointConnectionError prints an invalid-region message and
exits(1). -/
def validate_aws_credentials (profile_name region_name : String)
    (sts : StsOutcome) : ValidateResult :=
  match sts with
  | .ok account => .returned (some account)
  | .clientError code =>
    if code = "ExpiredToken" then
      .exited (token_error_msg ++ " Credentials for profile "
        ++ profile_name ++ " are expired.")
    else if code = "InvalidClientTokenId" then
      .exited (token_error_msg ++ " Credentials for profile "
        ++ profile_name ++ " are invalid or do not have access to region "
        ++ region_name ++ ".")
    else
      .returned none
  | .endpointConnectionError =>
    .exited ("ERROR Invalid Region: The region " ++ region_name
      ++ " does not appear to be a valid AWS region.")

/-- How a call to get_dynamodb_table ends. -/
inductive TableLoadResult where
  | loaded
  | exitedNotFound (msg : String)
deriving DecidableEq

/-- get_dynamodb_table (src/cli/cli.py lines 54-72): table.load()
raises ResourceNotFoundException when the table does not exist, in
which case the function prints its message (typo as in the source) and
exits(1); otherwise the table resource is returned. -/
def get_dynamodb_table (table_name : String) (present : Bool) :
    TableLoadResult :=
  if present then .loaded
  else .exitedNotFound ("ERROR: count not find the table named "
    ++ table_name)

/-- The environment one invocation of run observes: the CLI arguments,
the STS outcomes for the two profiles, whether each table exists, the
scan responses the source table serves, and the destination table's
key attribute and current rows. -/
structure Env where
  src_table_name : String
  src_profile : String
  src_region : String
  dest_table_name : String
  dest_profile : String
  dest_region : String
  srcSts : StsOutcome
  destSts : StsOutcome
  srcTablePresent : Bool
  destTablePresent : Bool
  srcScan : List ScanResp
  destKeyAttr : String
  destRows : List Item
deriving DecidableEq

/-- Observable outcome of one invocation of run: process exit code,
the fatal error message if any, the destination table's rows after the
run, whether write_items_to_dyanmodb_table was invoked, and the trace
of scan / batch-write requests issued against the backing store. -/
structure RunResult where
  exitCode : Nat
  errorMsg : Option String
  destRows : List Item
  writerInvoked : Bool
  events : List Event
deriving DecidableEq

/-- run (src/cli/cli.py lines 126-153): validate both profiles, load
both tables (each step exits the process on failure, leaving the
destination untouched), then read all source items and write them to
the destination. -/
def run (maxBatch : Nat) (env : Env) : RunResult :=
  match validate_aws_credentials env.src_profile env.src_region
      env.srcSts with
  | .exited msg => ⟨1, some msg, env.destRows, false, []⟩
  | .returned _ =>
    match validate_aws_credentials env.dest_profile env.dest_region
        env.destSts with
    | .exited msg => ⟨1, some msg, env.destRows, false, []⟩
    | .returned _ =>
      match get_dynamodb_table env.src_table_name env.srcTablePresent with
      | .exitedNotFound msg => ⟨1, some msg, env.destRows, false, []⟩
      | .loaded =>
        match get_dynamodb_table env.dest_table_name
            env.destTablePresent with
        | .exitedNotFound msg => ⟨1, some msg, env.destRows, false, []⟩
        | .loaded =>
          let src_items := get_dynamodb_items env.srcScan
          ⟨0, none,
           write_items_to_dyanmodb_table env.destKeyAttr src_items
             env.destRows,
           true,
           scanEvents env.srcScan
             ++ (batchWriterRun maxBatch src_items).map
                  Event.batchWriteReq⟩

/-- An environment in which the source profile's STS call raises a
ClientError whose code is neither ExpiredToken nor
InvalidClientTokenId (for example SignatureDoesNotMatch, the code AWS
returns for a wrong secret key), while everything else is healthy. -/
def swallowedClientErrorEnv : Env :=
  { src_table_name := "TEST_SOURCE"
    src_profile := "default"
    src_region := "us-east-1"
    dest_table_name := "TEST_DESTINATION"
    dest_profile := "default"
    dest_region := "us-east-1"
    srcSts := .clientError "SignatureDoesNotMatch"
    destSts := .ok "123456789012"
    srcTablePresent := true
    destTablePresent := true
    srcScan := responsesOfPages [[[("id", AttrValue.S "A100")]]]
    destKeyAttr := "id"
    destRows := [] }

/-- Characters accepted by the class in the profile-header regex of
get_profile_names, src/cli/cli.py line 23: word characters,
whitespace, and the hyphen (ASCII reading of the Python classes). -/
def isProfileChar (c : Char) : Bool :=
  c.isAlphanum || c == '_' || c.isWhitespace || c == '-'

/-- The per-line regex match of get_profile_names: a line (shown here
with its trailing newline stripped; the regex dollar anchor matches
just before a trailing newline) matches when it is an opening bracket,
one or more class characters, and a closing bracket at the end.  Since
neither bracket is in the class, the greedy match is a plain
takeWhile / dropWhile split. -/
def matchProfileLine (line : String) : Option String :=
  let cs := line.toList
  if cs.head? = some '[' then
    let rest := cs.tail
    let name := rest.takeWhile isProfileChar
    if rest.dropWhile isProfileChar = [']'] then
      if name.isEmpty then none else some (String.mk name)
    else none
  else none

/-- get_profile_names (src/cli/cli.py lines 12-25): collect, in file
order, the captured group of every line of the credentials file that
matches the profile-header regex. -/
def get_profile_names (lines : List String) : List String :=
  lines.filterMap matchProfileLine

/-- Modelled from the claim's words: a bracketed section header whose
name is nonempty and consists solely of word characters, whitespace,
and hyphens; any other line is not a header. -/
def specHeaderName (line : String) : Option String :=
  let cs := line.toList
  if cs.head? = some '[' ∧ cs.tail.getLast? = some ']'
      ∧ cs.tail.dropLast ≠ [] ∧ cs.tail.dropLast.all isProfileChar then
    some (String.mk cs.tail.dropLast)
  else none

lemma get_dynamodb_items_aux_pages (pages : List (List Item))
    (acc : List Item) :
    (get_dynamodb_items_aux (responsesOfPages pages) acc).1
      = acc ++ pages.flatten := by
  induction pages generalizing acc with
  | nil => simp [responsesOfPages, get_dynamodb_items_aux]
  | cons p rest ih =>
    cases rest with
    | nil => simp [responsesOfPages, get_dynamodb_items_aux]
    | cons q rest2 =>
      simp [responsesOfPages, get_dynamodb_items_aux, ih, List.append_assoc]

lemma get_dynamodb_items_pages_join (pages : List (List Item)) :
    get_dynamodb_items (responsesOfPages pages) = pages.flatten := by
  simpa [get_dynamodb_items] using get_dynamodb_items_aux_pages pages []

/-- Claim C1: scanning a table whose contents the store splits into any
finite number of pages returns exactly the table's items, with no
duplicates and no omissions, independently of the pagination. -/
theorem get_dynamodb_items_page_independent (tableItems : List Item)
    (pages : List (List Item)) (h : pages.flatten = tableItems) :
    get_dynamodb_items (responsesOfPages pages) = tableItems := by
  rw [get_dynamodb_items_pages_join, h]

/-- Witness for claim C1 at a concrete two-page split of a three-item
table. -/
theorem get_dynamodb_items_page_independent_witness :
    ([[[("id", AttrValue.S "A100")]],
      [[("id", AttrValue.S "A200")], [("id", AttrValue.S "A300")]]] :
        List (List Item)).flatten
      = [[("id", AttrValue.S "A100")], [("id", AttrValue.S "A200")],
         [("id", AttrValue.S "A300")]] ∧
    get_dynamodb_items (responsesOfPages
        [[[("id", AttrValue.S "A100")]],
         [[("id", AttrValue.S "A200")], [("id", AttrValue.S "A300")]]])
      = [[("id", AttrValue.S "A100")], [("id", AttrValue.S "A200")],
         [("id", AttrValue.S "A300")]] :=
  ⟨rfl, get_dynamodb_items_page_independent _ _ rfl⟩

lemma get_dynamodb_items_aux_stop (pre : List ScanResp) (r : ScanResp)
    (post : List ScanResp) (acc : List Item)
    (hpre : ∀ x ∈ pre, x.lastEvaluatedKey = true)
    (hr : r.lastEvaluatedKey = false) :
    (get_dynamodb_items_aux (pre ++ r :: post) acc).1
      = acc ++ (pre.map ScanResp.Items).flatten ++ r.Items := by
  induction pre generalizing acc with
  | nil => simp [get_dynamodb_items_aux, hr]
  | cons x pre2 ih =>
    have hx : x.lastEvaluatedKey = true := hpre x (by simp)
    have hpre2 : ∀ y ∈ pre2, y.lastEvaluatedKey = true := fun y hy =>
      hpre y (by simp [hy])
    simp [get_dynamodb_items_aux, hx, ih _ hpre2, List.append_assoc]

/-- Claim C6: the scan loop stops exactly at the first response that
carries no LastEvaluatedKey: its result is the items of the
cursor-carrying prefix plus those of that response, independently of
any responses the store could have served afterwards (termination is
inherent: the loop consumes one response of the finite list per
iteration). -/
theorem scan_loop_stops_at_first_cursor_free (pre : List ScanResp)
    (r : ScanResp) (post : List ScanResp)
    (hpre : ∀ x ∈ pre, x.lastEvaluatedKey = true)
    (hr : r.lastEvaluatedKey = false) :
    get_dynamodb_items (pre ++ r :: post)
      = (pre.map ScanResp.Items).flatten ++ r.Items := by
  simpa [get_dynamodb_items] using
    get_dynamodb_items_aux_stop pre r post [] hpre hr

/-- Witness for claim C6: a cursor-carrying page, then a cursor-free
page, then a page the loop never requests. -/
theorem scan_loop_stops_at_first_cursor_free_witness :
    (∀ x ∈ ([⟨[[("id", AttrValue.S "A100")]], true⟩] : List ScanResp),
        x.lastEvaluatedKey = true) ∧
    (⟨[[("id", AttrValue.S "A200")]], false⟩ : ScanResp).lastEvaluatedKey
        = false ∧
    get_dynamodb_items
        ([⟨[[("id", AttrValue.S "A100")]], true⟩]
          ++ (⟨[[("id", AttrValue.S "A200")]], false⟩ : ScanResp)
          :: [⟨[[("id", AttrValue.S "A999")]], true⟩])
      = [[("id", AttrValue.S "A100")], [("id", AttrValue.S "A200")]] :=
  ⟨by decide, rfl,
    scan_loop_stops_at_first_cursor_free _ _ _ (by decide) rfl⟩

lemma write_items_cons_untouched (k : String) (r : Item) :
    ∀ (S D : List Item), itemKey k r ∉ S.map (itemKey k) →
      write_items_to_dyanmodb_table k S (r :: D)
        = r :: write_items_to_dyanmodb_table k S D := by
  intro S
  induction S with
  | nil => intro D _; rfl
  | cons s S2 ih =>
    intro D h
    rw [List.map_cons, List.mem_cons] at h
    push_neg at h
    obtain ⟨h1, h2⟩ := h
    have hput : put_item k (r :: D) s = r :: put_item k D s := by
      simp [put_item, List.filter_cons, h1]
    show write_items_to_dyanmodb_table k S2 (put_item k (r :: D) s) = _
    rw [hput, ih (put_item k D s) h2]
    rfl

/-- Characterization of the writer: the destination keeps its rows
whose key is not among the written keys, in order, followed by the
rows the same write produces on an empty destination. -/
lemma write_items_eq_filter_append (k : String) :
    ∀ (S D : List Item),
      write_items_to_dyanmodb_table k S D
        = D.filter (fun r => decide (itemKey k r ∉ S.map (itemKey k)))
            ++ write_items_to_dyanmodb_table k S [] := by
  intro S
  induction S with
  | nil =>
    intro D
    simp [write_items_to_dyanmodb_table]
  | cons s S2 ih =>
    intro D
    have e1 : write_items_to_dyanmodb_table k (s :: S2) D
        = write_items_to_dyanmodb_table k S2 (put_item k D s) := rfl
    have e2 : write_items_to_dyanmodb_table k (s :: S2) []
        = write_items_to_dyanmodb_table k S2 [s] := rfl
    rw [e1, ih (put_item k D s), e2, ih [s], ← List.append_assoc]
    congr 1
    show (put_item k D s).filter _ = _
    rw [put_item, List.filter_append, List.filter_filter]
    congr 1
    apply List.filter_congr
    intro r _
    by_cases ha : itemKey k r = itemKey k s <;>
      by_cases hb : itemKey k r ∈ S2.map (itemKey k) <;>
      simp [ha, hb]

lemma mem_write_items (k : String) :
    ∀ (S D : List Item) (r : Item),
      r ∈ write_items_to_dyanmodb_table k S D → r ∈ D ∨ r ∈ S := by
  intro S
  induction S with
  | nil => intro D r h; exact Or.inl h
  | cons s S2 ih =>
    intro D r h
    rcases ih (put_item k D s) r h with h2 | h2
    · rw [put_item, List.mem_append] at h2
      rcases h2 with h3 | h3
      · exact Or.inl (List.mem_of_mem_filter h3)
      · simp only [List.mem_singleton] at h3
        exact Or.inr (h3 ▸ List.mem_cons_self s S2)
    · exact Or.inr (List.mem_cons_of_mem s h2)

/-- Claim C5: writing the same item sequence twice leaves the
destination exactly as writing it once does — each put is an upsert by
key, overwriting rather than duplicating. -/
theorem write_items_idempotent (k : String) (S D : List Item) :
    write_items_to_dyanmodb_table k S
        (write_items_to_dyanmodb_table k S D)
      = write_items_to_dyanmodb_table k S D := by
  have hnil : (write_items_to_dyanmodb_table k S []).filter
      (fun r => decide (itemKey k r ∉ S.map (itemKey k))) = [] := by
    rw [List.filter_eq_nil_iff]
    intro r hr
    rcases mem_write_items k S [] r hr with h | h
    · exact absurd h (List.not_mem_nil r)
    · simp [List.mem_map_of_mem (itemKey k) h]
  have hfil : (write_items_to_dyanmodb_table k S D).filter
        (fun r => decide (itemKey k r ∉ S.map (itemKey k)))
      = D.filter (fun r => decide (itemKey k r ∉ S.map (itemKey k))) := by
    rw [write_items_eq_filter_append k S D, List.filter_append, hnil,
      List.append_nil, List.filter_filter]
    apply List.filter_congr
    intro r _
    by_cases hb : itemKey k r ∈ S.map (itemKey k) <;> simp [hb]
  rw [write_items_eq_filter_append k S
      (write_items_to_dyanmodb_table k S D), hfil,
    ← write_items_eq_filter_append k S D]

lemma write_items_nil_of_nodup (k : String) :
    ∀ (S : List Item), (S.map (itemKey k)).Nodup →
      write_items_to_dyanmodb_table k S [] = S := by
  intro S
  induction S with
  | nil => intro _; rfl
  | cons s S2 ih =>
    intro h
    rw [List.map_cons, List.nodup_cons] at h
    obtain ⟨h1, h2⟩ := h
    have e : write_items_to_dyanmodb_table k (s :: S2) []
        = write_items_to_dyanmodb_table k S2 [s] := rfl
    rw [e, write_items_cons_untouched k s S2 [] h1, ih h2]

/-- Claim C2: round-trip law — writing an item sequence with no
duplicate keys to an empty destination and then scanning the
destination (under any pagination of its rows) yields exactly the
written sequence, every item reproduced with all its attributes and
attribute types. -/
theorem writeAll_scanAll_roundtrip (k : String) (S : List Item)
    (pages : List (List Item))
    (hkeys : (S.map (itemKey k)).Nodup)
    (hpages : pages.flatten = write_items_to_dyanmodb_table k S []) :
    get_dynamodb_items (responsesOfPages pages) = S := by
  rw [get_dynamodb_items_pages_join, hpages,
    write_items_nil_of_nodup k S hkeys]

/-- Witness for claim C2: two items with distinct keys and mixed
attribute types, written to an empty table and read back in two pages. -/
theorem writeAll_scanAll_roundtrip_witness :
    (([[("id", AttrValue.S "A100"), ("data", AttrValue.S "Data")],
       [("id", AttrValue.S "A200"), ("n", AttrValue.N 7)]] :
        List Item).map (itemKey "id")).Nodup ∧
    ([[[("id", AttrValue.S "A100"), ("data", AttrValue.S "Data")]],
      [[("id", AttrValue.S "A200"), ("n", AttrValue.N 7)]]] :
        List (List Item)).flatten
      = write_items_to_dyanmodb_table "id"
          [[("id", AttrValue.S "A100"), ("data", AttrValue.S "Data")],
           [("id", AttrValue.S "A200"), ("n", AttrValue.N 7)]] [] ∧
    get_dynamodb_items (responsesOfPages
        [[[("id", AttrValue.S "A100"), ("data", AttrValue.S "Data")]],
         [[("id", AttrValue.S "A200"), ("n", AttrValue.N 7)]]])
      = [[("id", AttrValue.S "A100"), ("data", AttrValue.S "Data")],
         [("id", AttrValue.S "A200"), ("n", AttrValue.N 7)]] :=
  ⟨by decide, by decide,
    writeAll_scanAll_roundtrip "id"
      [[("id", AttrValue.S "A100"), ("data", AttrValue.S "Data")],
       [("id", AttrValue.S "A200"), ("n", AttrValue.N 7)]]
      [[[("id", AttrValue.S "A100"), ("data", AttrValue.S "Data")]],
       [[("id", AttrValue.S "A200"), ("n", AttrValue.N 7)]]]
      (by decide) (by decide)⟩

/-- Claim C10: writing an empty item sequence is a no-op — the
destination rows are unchanged and the batch writer submits no batch,
hence zero put operations reach the store. -/
theorem write_items_empty_noop (k : String) (rows : List Item)
    (maxBatch : Nat) :
    write_items_to_dyanmodb_table k [] rows = rows ∧
    batchWriterRun maxBatch [] = [] :=
  ⟨rfl, rfl⟩

lemma batchWriter_foldl_inv (maxBatch : Nat) (hmax : 1 ≤ maxBatch) :
    ∀ (items : List Item) (bs : List (List Item)) (buf : List Item),
      buf.length < maxBatch → (∀ b ∈ bs, b.length ≤ maxBatch) →
      (items.foldl (batchWriterStep maxBatch) (bs, buf)).2.length
          < maxBatch ∧
      (∀ b ∈ (items.foldl (batchWriterStep maxBatch) (bs, buf)).1,
          b.length ≤ maxBatch) ∧
      (items.foldl (batchWriterStep maxBatch) (bs, buf)).1.flatten
          ++ (items.foldl (batchWriterStep maxBatch) (bs, buf)).2
        = bs.flatten ++ buf ++ items := by
  intro items
  induction items with
  | nil =>
    intro bs buf h1 h2
    exact ⟨h1, h2, by simp⟩
  | cons it items2 ih =>
    intro bs buf h1 h2
    rw [List.foldl_cons]
    by_cases hc : maxBatch ≤ (buf ++ [it]).length
    · have hc2 : maxBatch ≤ buf.length + 1 := by simpa using hc
      have hstep : batchWriterStep maxBatch (bs, buf) it
          = (bs ++ [buf ++ [it]], []) := by
        simp [batchWriterStep, hc2]
      rw [hstep]
      have hbuf : ([] : List Item).length < maxBatch := by simpa using hmax
      have hbs : ∀ b ∈ bs ++ [buf ++ [it]], b.length ≤ maxBatch := by
        intro b hb
        rcases List.mem_append.mp hb with hb2 | hb2
        · exact h2 b hb2
        · simp only [List.mem_singleton] at hb2
          subst hb2
          simp only [List.length_append, List.length_singleton]
          omega
      obtain ⟨g1, g2, g3⟩ := ih (bs ++ [buf ++ [it]]) [] hbuf hbs
      refine ⟨g1, g2, ?_⟩
      rw [g3]
      simp [List.append_assoc]
    · have hc2 : ¬ maxBatch ≤ buf.length + 1 := by simpa using hc
      have hstep : batchWriterStep maxBatch (bs, buf) it
          = (bs, buf ++ [it]) := by
        simp [batchWriterStep, hc2]
      rw [hstep]
      have h1b : (buf ++ [it]).length < maxBatch := by
        simp only [List.length_append, List.length_singleton]
        simp only [List.length_append, List.length_singleton] at hc
        omega
      obtain ⟨g1, g2, g3⟩ := ih bs (buf ++ [it]) h1b h2
      refine ⟨g1, g2, ?_⟩
      rw [g3]
      simp [List.append_assoc]

lemma batchWriterRun_flatten_sizes (maxBatch : Nat) (hmax : 1 ≤ maxBatch)
    (items : List Item) :
    (batchWriterRun maxBatch items).flatten = items ∧
    ∀ b ∈ batchWriterRun maxBatch items, b.length ≤ maxBatch := by
  obtain ⟨g1, g2, g3⟩ := batchWriter_foldl_inv maxBatch hmax items [] []
    (by simpa using hmax) (by simp)
  rw [batchWriterRun]
  by_cases he : (items.foldl (batchWriterStep maxBatch) ([], [])).2 = []
  · rw [he] at g3
    simp only [List.append_nil, List.nil_append, List.flatten_nil] at g3
    constructor
    · simp [he, g3]
    · simpa [he] using g2
  · have he2 : (items.foldl (batchWriterStep maxBatch) ([], [])).2.isEmpty
        = false := by
      simpa [List.isEmpty_iff] using he
    simp only [he2, Bool.false_eq_true, if_false]
    constructor
    · rw [List.flatten_append]
      simpa using g3
    · intro b hb
      rcases List.mem_append.mp hb with hb2 | hb2
      · exact g2 b hb2
      · simp only [List.mem_singleton] at hb2
        subst hb2
        omega

/-- Claim C7: the batch writer partitions the handed-off item sequence
into the submitted batches, each batch not exceeding the configured
maximum items-per-batch, so the number of batch submissions is at
least the ceiling of the item count divided by the maximum. -/
theorem batch_partition_bound (maxBatch : Nat) (items : List Item)
    (hmax : 1 ≤ maxBatch) :
    (batchWriterRun maxBatch items).flatten = items ∧
    (∀ b ∈ batchWriterRun maxBatch items, b.length ≤ maxBatch) ∧
    (items.length + maxBatch - 1) / maxBatch
      ≤ (batchWriterRun maxBatch items).length := by
  obtain ⟨hflat, hsizes⟩ := batchWriterRun_flatten_sizes maxBatch hmax items
  refine ⟨hflat, hsizes, ?_⟩
  have hlen : items.length
      ≤ (batchWriterRun maxBatch items).length * maxBatch := by
    calc items.length = (batchWriterRun maxBatch items).flatten.length := by
          rw [hflat]
      _ = ((batchWriterRun maxBatch items).map List.length).sum :=
          List.length_flatten _
      _ ≤ ((batchWriterRun maxBatch items).map List.length).length
            * maxBatch := by
          have := List.sum_le_card_nsmul
            ((batchWriterRun maxBatch items).map List.length) maxBatch
            (by
              intro x hx
              rcases List.mem_map.mp hx with ⟨b, hb, hbx⟩
              exact hbx ▸ hsizes b hb)
          simpa [smul_eq_mul] using this
      _ = (batchWriterRun maxBatch items).length * maxBatch := by
          rw [List.length_map]
  have h2 : items.length + maxBatch - 1
      ≤ (batchWriterRun maxBatch items).length * maxBatch + maxBatch - 1 :=
    Nat.sub_le_sub_right (Nat.add_le_add_right hlen maxBatch) 1
  calc (items.length + maxBatch - 1) / maxBatch
      ≤ ((batchWriterRun maxBatch items).length * maxBatch + maxBatch - 1)
          / maxBatch := Nat.div_le_div_right h2
    _ = (batchWriterRun maxBatch items).length := by
        rw [Nat.mul_comm, Nat.add_sub_assoc hmax,
          Nat.mul_add_div hmax]
        rw [Nat.div_eq_of_lt (by omega)]
        exact Nat.add_zero _

/-- Witness for claim C7: three items with the default batch maximum of
25 yield one batch of three. -/
theorem batch_partition_bound_witness :
    (1 : Nat) ≤ 25 ∧
    ((batchWriterRun 25
        [[("id", AttrValue.S "A100")], [("id", AttrValue.S "A200")],
         [("id", AttrValue.S "A300")]]).flatten
        = [[("id", AttrValue.S "A100")], [("id", AttrValue.S "A200")],
           [("id", AttrValue.S "A300")]] ∧
      (∀ b ∈ batchWriterRun 25
          [[("id", AttrValue.S "A100")], [("id", AttrValue.S "A200")],
           [("id", AttrValue.S "A300")]], b.length ≤ 25) ∧
      (([[("id", AttrValue.S "A100")], [("id", AttrValue.S "A200")],
         [("id", AttrValue.S "A300")]] : List Item).length + 25 - 1) / 25
        ≤ (batchWriterRun 25
            [[("id", AttrValue.S "A100")], [("id", AttrValue.S "A200")],
             [("id", AttrValue.S "A300")]]).length) :=
  ⟨by decide,
    batch_partition_bound 25
      [[("id", AttrValue.S "A100")], [("id", AttrValue.S "A200")],
       [("id", AttrValue.S "A300")]] (by decide)⟩

/-- Claim C3: when both credential validations pass but the source
table does not exist, run exits with status 1 carrying the NotFound
message that names the missing table, the writer is never invoked, no
request is issued, and the destination rows are exactly what they
were. -/
theorem src_not_found_aborts (maxBatch : Nat) (env : Env)
    (h1 : (validate_aws_credentials env.src_profile env.src_region
        env.srcSts).isExit = false)
    (h2 : (validate_aws_credentials env.dest_profile env.dest_region
        env.destSts).isExit = false)
    (h3 : env.srcTablePresent = false) :
    run maxBatch env
      = ⟨1, some ("ERROR: count not find the table named "
            ++ env.src_table_name),
         env.destRows, false, []⟩ := by
  rw [run]
  cases hv1 : validate_aws_credentials env.src_profile env.src_region
      env.srcSts with
  | exited msg => rw [hv1] at h1; simp [ValidateResult.isExit] at h1
  | returned a1 =>
    cases hv2 : validate_aws_credentials env.dest_profile env.dest_region
        env.destSts with
    | exited msg => rw [hv2] at h2; simp [ValidateResult.isExit] at h2
    | returned a2 =>
      simp [get_dynamodb_table, h3]

/-- Witness for claim C3: healthy credentials, missing source table. -/
theorem src_not_found_aborts_witness :
    (validate_aws_credentials "default" "us-east-1"
        (StsOutcome.ok "123456789012")).isExit = false ∧
    (validate_aws_credentials "default" "us-west-2"
        (StsOutcome.ok "210987654321")).isExit = false ∧
    ({ src_table_name := "FAKE_TABLE_NAME", src_profile := "default",
       src_region := "us-east-1", dest_table_name := "TEST_DESTINATION",
       dest_profile := "default", dest_region := "us-west-2",
       srcSts := StsOutcome.ok "123456789012",
       destSts := StsOutcome.ok "210987654321",
       srcTablePresent := false, destTablePresent := true,
       srcScan := [], destKeyAttr := "id",
       destRows := [[("id", AttrValue.S "D1")]] } : Env).srcTablePresent
      = false ∧
    run 25
      { src_table_name := "FAKE_TABLE_NAME", src_profile := "default",
        src_region := "us-east-1", dest_table_name := "TEST_DESTINATION",
        dest_profile := "default", dest_region := "us-west-2",
        srcSts := StsOutcome.ok "123456789012",
        destSts := StsOutcome.ok "210987654321",
        srcTablePresent := false, destTablePresent := true,
        srcScan := [], destKeyAttr := "id",
        destRows := [[("id", AttrValue.S "D1")]] }
      = ⟨1, some ("ERROR: count not find the table named "
            ++ "FAKE_TABLE_NAME"),
         [[("id", AttrValue.S "D1")]], false, []⟩ :=
  ⟨rfl, rfl, rfl,
    src_not_found_aborts 25
      { src_table_name := "FAKE_TABLE_NAME", src_profile := "default",
        src_region := "us-east-1", dest_table_name := "TEST_DESTINATION",
        dest_profile := "default", dest_region := "us-west-2",
        srcSts := StsOutcome.ok "123456789012",
        destSts := StsOutcome.ok "210987654321",
        srcTablePresent := false, destTablePresent := true,
        srcScan := [], destKeyAttr := "id",
        destRows := [[("id", AttrValue.S "D1")]] }
      rfl rfl rfl⟩

/-- Claim C4 fails on the code: a ClientError whose code is neither
ExpiredToken nor InvalidClientTokenId (here SignatureDoesNotMatch, a
credential error) matches neither branch of the except block, so
validate_aws_credentials returns None instead of exiting — the error
is silently swallowed and run continues to completion with exit
status 0, invoking the writer. -/
theorem client_error_swallowed :
    validate_aws_credentials "default" "us-east-1"
        (StsOutcome.clientError "SignatureDoesNotMatch")
      = ValidateResult.returned none ∧
    (run 25 swallowedClientErrorEnv).exitCode = 0 ∧
    (run 25 swallowedClientErrorEnv).errorMsg = none ∧
    (run 25 swallowedClientErrorEnv).writerInvoked = true :=
  ⟨rfl, rfl, rfl, rfl⟩

lemma scanEvents_aux_all_scan (resps : List ScanResp) :
    ∀ (acc : List Item) (e : Event),
      e ∈ (get_dynamodb_items_aux resps acc).2 → e = Event.scanReq := by
  induction resps with
  | nil =>
    intro acc e he
    simp [get_dynamodb_items_aux] at he
  | cons r rest ih =>
    intro acc e he
    by_cases hc : r.lastEvaluatedKey
    · simp only [get_dynamodb_items_aux, hc, if_true] at he
      rcases List.mem_cons.mp he with he2 | he2
      · exact he2
      · exact ih (acc ++ r.Items) e he2
    · simp only [get_dynamodb_items_aux, hc, if_false] at he
      simpa using he

/-- Claim C8: in a successful run the request trace equals its scan
requests followed by its batch-write requests, each sub-trace in
issuance order — all reads complete before the first write is issued,
and the trace is a single linear sequence (the embedding of the
single-threaded, blocking control flow), so no two requests are in
flight concurrently. -/
theorem run_reads_before_writes (maxBatch : Nat) (env : Env)
    (h1 : (validate_aws_credentials env.src_profile env.src_region
        env.srcSts).isExit = false)
    (h2 : (validate_aws_credentials env.dest_profile env.dest_region
        env.destSts).isExit = false)
    (h3 : env.srcTablePresent = true)
    (h4 : env.destTablePresent = true) :
    (run maxBatch env).events
      = (run maxBatch env).events.filter Event.isScan
        ++ (run maxBatch env).events.filter Event.isWrite := by
  have hrun : (run maxBatch env).events
      = scanEvents env.srcScan
        ++ (batchWriterRun maxBatch (get_dynamodb_items env.srcScan)).map
             Event.batchWriteReq := by
    rw [run]
    cases hv1 : validate_aws_credentials env.src_profile env.src_region
        env.srcSts with
    | exited msg => rw [hv1] at h1; simp [ValidateResult.isExit] at h1
    | returned a1 =>
      cases hv2 : validate_aws_credentials env.dest_profile env.dest_region
          env.destSts with
      | exited msg => rw [hv2] at h2; simp [ValidateResult.isExit] at h2
      | returned a2 =>
        simp [get_dynamodb_table, h3, h4]
  have hscan : ∀ e ∈ scanEvents env.srcScan, e = Event.scanReq :=
    fun e he => scanEvents_aux_all_scan env.srcScan [] e he
  have hA1 : (scanEvents env.srcScan).filter Event.isScan
      = scanEvents env.srcScan :=
    List.filter_eq_self.mpr fun e he => by rw [hscan e he]; rfl
  have hA2 : (scanEvents env.srcScan).filter Event.isWrite = [] :=
    List.filter_eq_nil_iff.mpr fun e he => by rw [hscan e he]; simp [Event.isWrite]
  have hB1 : ((batchWriterRun maxBatch
        (get_dynamodb_items env.srcScan)).map
          Event.batchWriteReq).filter Event.isScan = [] :=
    List.filter_eq_nil_iff.mpr fun e he => by
      rcases List.mem_map.mp he with ⟨b, _, hb⟩
      rw [← hb]
      simp [Event.isScan]
  have hB2 : ((batchWriterRun maxBatch
        (get_dynamodb_items env.srcScan)).map
          Event.batchWriteReq).filter Event.isWrite
      = (batchWriterRun maxBatch (get_dynamodb_items env.srcScan)).map
          Event.batchWriteReq :=
    List.filter_eq_self.mpr fun e he => by
      rcases List.mem_map.mp he with ⟨b, _, hb⟩
      rw [← hb]
      rfl
  rw [hrun, List.filter_append, List.filter_append, hA1, hA2, hB1, hB2,
    List.nil_append, List.append_nil]

/-- Witness for claim C8: a healthy two-page copy. -/
theorem run_reads_before_writes_witness :
    (validate_aws_credentials "default" "us-east-1"
        (StsOutcome.ok "123456789012")).isExit = false ∧
    (validate_aws_credentials "default" "us-west-2"
        (StsOutcome.ok "210987654321")).isExit = false ∧
    ({ src_table_name := "TEST_SOURCE", src_profile := "default",
       src_region := "us-east-1", dest_table_name := "TEST_DESTINATION",
       dest_profile := "default", dest_region := "us-west-2",
       srcSts := StsOutcome.ok "123456789012",
       destSts := StsOutcome.ok "210987654321",
       srcTablePresent := true, destTablePresent := true,
       srcScan := responsesOfPages
         [[[("id", AttrValue.S "A100")]], [[("id", AttrValue.S "A200")]]],
       destKeyAttr := "id", destRows := [] } : Env).srcTablePresent
      = true ∧
    (run 25
      { src_table_name := "TEST_SOURCE", src_profile := "default",
        src_region := "us-east-1", dest_table_name := "TEST_DESTINATION",
        dest_profile := "default", dest_region := "us-west-2",
        srcSts := StsOutcome.ok "123456789012",
        destSts := StsOutcome.ok "210987654321",
        srcTablePresent := true, destTablePresent := true,
        srcScan := responsesOfPages
          [[[("id", AttrValue.S "A100")]], [[("id", AttrValue.S "A200")]]],
        destKeyAttr := "id", destRows := [] }).events
      = (run 25
          { src_table_name := "TEST_SOURCE", src_profile := "default",
            src_region := "us-east-1",
            dest_table_name := "TEST_DESTINATION",
            dest_profile := "default", dest_region := "us-west-2",
            srcSts := StsOutcome.ok "123456789012",
            destSts := StsOutcome.ok "210987654321",
            srcTablePresent := true, destTablePresent := true,
            srcScan := responsesOfPages
              [[[("id", AttrValue.S "A100")]],
               [[("id", AttrValue.S "A200")]]],
            destKeyAttr := "id", destRows := [] }).events.filter
          Event.isScan
        ++ (run 25
            { src_table_name := "TEST_SOURCE", src_profile := "default",
              src_region := "us-east-1",
              dest_table_name := "TEST_DESTINATION",
              dest_profile := "default", dest_region := "us-west-2",
              srcSts := StsOutcome.ok "123456789012",
              destSts := StsOutcome.ok "210987654321",
              srcTablePresent := true, destTablePresent := true,
              srcScan := responsesOfPages
                [[[("id", AttrValue.S "A100")]],
                 [[("id", AttrValue.S "A200")]]],
              destKeyAttr := "id", destRows := [] }).events.filter
            Event.isWrite :=
  ⟨rfl, rfl, rfl,
    run_reads_before_writes 25
      { src_table_name := "TEST_SOURCE", src_profile := "default",
        src_region := "us-east-1", dest_table_name := "TEST_DESTINATION",
        dest_profile := "default", dest_region := "us-west-2",
        srcSts := StsOutcome.ok "123456789012",
        destSts := StsOutcome.ok "210987654321",
        srcTablePresent := true, destTablePresent := true,
        srcScan := responsesOfPages
          [[[("id", AttrValue.S "A100")]], [[("id", AttrValue.S "A200")]]],
        destKeyAttr := "id", destRows := [] }
      rfl rfl rfl rfl⟩

lemma profile_core_eq (rest : List Char) :
    (if rest.dropWhile isProfileChar = [']'] then
       if (rest.takeWhile isProfileChar).isEmpty then none
       else some (String.mk (rest.takeWhile isProfileChar))
     else none)
    = (if rest.getLast? = some ']' ∧ rest.dropLast ≠ []
          ∧ rest.dropLast.all isProfileChar then
        some (String.mk rest.dropLast)
      else none) := by
  have hbr : isProfileChar ']' = false := by decide
  by_cases hd : rest.dropWhile isProfileChar = [']']
  · have hsplit : rest.takeWhile isProfileChar ++ [']'] = rest := by
      conv_rhs => rw [← List.takeWhile_append_dropWhile isProfileChar rest]
      rw [hd]
    have hlast : rest.getLast? = some ']' := by
      rw [← hsplit]
      exact List.getLast?_concat _
    have hdropl : rest.dropLast = rest.takeWhile isProfileChar := by
      conv_lhs => rw [← hsplit]
      exact List.dropLast_concat
    have hall : rest.dropLast.all isProfileChar = true := by
      rw [hdropl, List.all_eq_true]
      intro x hx
      exact List.mem_takeWhile_imp hx
    rw [if_pos hd]
    by_cases hne : rest.takeWhile isProfileChar = []
    · rw [if_pos (by simp [hne]),
        if_neg (fun h => h.2.1 (by rw [hdropl, hne]))]
    · rw [if_neg (by simpa [List.isEmpty_iff] using hne),
        if_pos ⟨hlast, by rw [hdropl]; exact hne, hall⟩, hdropl]
  · rw [if_neg hd, if_neg]
    rintro ⟨hlast, _, hall⟩
    apply hd
    have hnil : rest ≠ [] := by
      intro h
      rw [h] at hlast
      simp at hlast
    have hg : rest.getLast hnil = ']' := by
      have h2 := List.getLast?_eq_getLast rest hnil
      rw [h2] at hlast
      exact Option.some_inj.mp hlast
    have hconcat : rest.dropLast ++ [']'] = rest := by
      rw [← hg]
      exact List.dropLast_append_getLast hnil
    have hdw : rest.dropLast.dropWhile isProfileChar = [] :=
      List.dropWhile_eq_nil_iff.mpr (List.all_eq_true.mp hall)
    rw [← hconcat, List.dropWhile_append, hdw]
    simp [List.dropWhile_cons, hbr]

lemma matchProfileLine_eq_spec (line : String) :
    matchProfileLine line = specHeaderName line := by
  simp only [matchProfileLine, specHeaderName]
  cases hcs : line.toList with
  | nil => simp
  | cons c rest =>
    simp only [List.head?_cons, List.tail_cons]
    by_cases hc : c = '['
    · subst hc
      rw [if_pos rfl]
      simp only [eq_self_iff_true, true_and]
      exact profile_core_eq rest
    · rw [if_neg (fun h => hc (Option.some_inj.mp h)),
        if_neg (fun h => hc (Option.some_inj.mp h.1))]

/-- Claim C9: get_profile_names returns exactly the bracketed section
headers of the credentials file whose names consist solely of word
characters, whitespace, and hyphens, in file order (filterMap keeps
the file order); a header containing any other character, such as a
period, is silently omitted — and, since the CLI builds its profile
choices from this list, such a profile cannot be chosen. -/
theorem get_profile_names_spec (lines : List String) :
    get_profile_names lines = lines.filterMap specHeaderName ∧
    matchProfileLine "[my.profile]" = none ∧
    matchProfileLine "[profile 4]" = some "profile 4" := by
  refine ⟨?_, by decide, by decide⟩
  rw [get_profile_names]
  exact List.filterMap_congr fun line _ => matchProfileLine_eq_spec line

end DynamoCopy
